import Mathlib

/-!
Shallow embedding of the JSAlert dialog core (src/webpack.config.js, second
embedded file: the main JSAlert class).  JavaScript values that flow through
the dialog (`result`, button values, icon arguments) are modelled by the
inductive `JSValue`, with `undef` standing for JavaScript `undefined` (a
missing argument) and `null` for JavaScript `null`; the two are distinct
values, as they are in the source (`typeof x == "undefined"` distinguishes
them).  Side effects (event emissions via the EventSource base class, button
callback invocations, queue removal, DOM teardown, keyboard-listener
detachment) are recorded as an explicit trace of `TraceEvent`s in the order
the source performs them.
-/

/-- JavaScript values that appear in the dialog core. -/
inductive JSValue : Type
  | undef
  | null
  | bool (b : Bool)
  | str (s : String)
  deriving DecidableEq, Repr

/-- JavaScript truthiness for the values we model (used by `icon || fallback`
and `type || default`). -/
def JSValue.truthy : JSValue → Bool
  | JSValue.undef => false
  | JSValue.null => false
  | JSValue.bool b => b
  | JSValue.str s => !(s == "")

/-- A button record as pushed by `JSAlert.addButton` (source lines 189-200).
The `callback` slot of the source (the promise resolver) is always present,
so callback invocations are recorded in the trace rather than stored here. -/
structure Button : Type where
  text : String
  value : JSValue
  type : String
  deriving DecidableEq, Repr

/-- A text-field record as pushed by `JSAlert.addTextField` (source lines
203-210).  `elemValue` models `info.elem.value` of the rendered input
element: `none` before rendering, `some v` once the rendered field holds
current text `v`. -/
structure TextField : Type where
  value : String
  type : String
  placeholder : String
  elemValue : Option String
  deriving DecidableEq, Repr

/-- Observable side effects of the dialog core, in source order:
event emissions (`this.emit(name, payload)`), button-callback invocations
(`b.callback(arg)`), removal from the shared popup queue, DOM teardown
(`removeElements`), and detaching the window keydown listener. -/
inductive TraceEvent : Type
  | emit (name : String) (payload : JSValue)
  | callbackCall (buttonText : String) (arg : JSValue)
  | queueRemove
  | removeElements
  | detachKeyListener
  deriving DecidableEq, Repr

/-- The mutable state of one `JSAlert` instance (constructor, source lines
167-181). -/
structure JSAlertState : Type where
  title : String
  text : String
  buttons : List Button
  textFields : List TextField
  result : JSValue
  iconURL : JSValue
  cancelable : Bool
  cancelled : Bool
  dismissed : Bool
  deriving DecidableEq, Repr

/-- `new JSAlert(text, title)` (source lines 167-181): `result` starts as the
JavaScript value `false`, `iconURL` as `null`, `cancelable` true,
`cancelled` and `dismissed` false. -/
def JSAlert.new (text title : String) : JSAlertState :=
  { title := title
    text := text
    buttons := []
    textFields := []
    result := JSValue.bool false
    iconURL := JSValue.null
    cancelable := true
    cancelled := false
    dismissed := false }

/-- `setIcon(icon)` (source lines 184-186). -/
def setIcon (d : JSAlertState) (icon : JSValue) : JSAlertState :=
  { d with iconURL := icon }

/-- The icon value stored by the convenience constructors' guarded call
`if (icon !== false) alert.setIcon(icon || fallback)` (e.g. source line 89):
when `icon` is exactly `false` the old `iconURL` is kept, otherwise the icon
becomes `icon` when truthy and the fallback icon URL when falsy. -/
def iconAfterRule (old icon : JSValue) (fallback : String) : JSValue :=
  if icon = JSValue.bool false then old
  else if icon.truthy then icon else JSValue.str fallback

/-- The guarded `setIcon` call of the convenience constructors, as a single
field update (see `iconAfterRule`). -/
def applyIconRule (d : JSAlertState) (icon : JSValue) (fallback : String) : JSAlertState :=
  { d with iconURL := iconAfterRule d.iconURL icon fallback }

/-- Modelled from the spec: the icon table `icons.js` is not under src; icons
are opaque resource references ("iconRef (optional reference to an icon
resource)"), so we model the two referenced entries as distinct opaque URLs. -/
def IconsInformation : String := "icon-url-information"

/-- Modelled from the spec: second opaque icon resource (see
`IconsInformation`). -/
def IconsQuestion : String := "icon-url-question"

/-- `addButton(text, value, type)` (source lines 189-200): the stored value is
the label `text` when the `value` argument is `undefined` and the raw value
otherwise; the stored type is the explicit `type` when supplied, else
`"default"` for the first button and `"normal"` for later ones; the new
button is pushed at the end of `buttons`. -/
def addButton (d : JSAlertState) (text : String) (value : JSValue)
    (type : Option String) : JSAlertState :=
  { d with buttons := d.buttons ++
      [{ text := text
         value := if value = JSValue.undef then JSValue.str text else value
         type := type.getD (if d.buttons.length = 0 then "default" else "normal") }] }

/-- `addTextField(value, type, placeholderText)` (source lines 203-210):
each argument falls back to a default when absent (`value || ""`,
`type || "text"`, `placeholderText || ""`). -/
def addTextField (d : JSAlertState) (value : Option String) (type : Option String)
    (placeholderText : Option String) : JSAlertState :=
  { d with textFields := d.textFields ++
      [{ value := (value.getD "")
         type := (type.getD "text")
         placeholder := (placeholderText.getD "")
         elemValue := none }] }

/-- `getTextFieldValue(index)` (source lines 213-219): the rendered element's
current value when the field has been rendered, the stored value otherwise;
`none` models the JavaScript throw on an out-of-range index. -/
def getTextFieldValue (d : JSAlertState) (index : Nat) : Option String :=
  (d.textFields.get? index).map (fun info => info.elemValue.getD info.value)

/-- The render collaborator writing the user's text into a rendered input
element (source line 369 creates `info.elem`; the user then types into it). -/
def setFieldElem (d : JSAlertState) (idx : Nat) (v : String) : JSAlertState :=
  { d with textFields := (d.textFields.mapIdx
      (fun i f => if i = idx then { f with elemValue := some v } else f)) }

/-- The state part of `dismiss(result)` (source lines 242-252): everything the
method writes before any notification is emitted — `dismissed` is set first,
then `result` is stored, and `cancelled` is raised when the outcome argument
is `undefined` (no value supplied). -/
def dismissPre (d : JSAlertState) (result : JSValue) : JSAlertState :=
  { d with dismissed := true
           result := result
           cancelled := if result = JSValue.undef then true else d.cancelled }

/-- The side effects of a non-guarded `dismiss` run (source lines 247-265),
computed from the post-write state: queue removal, DOM teardown, keydown
listener detachment, then `"cancelled"` (when the `cancelled` flag holds) or
else `"complete"` with `result`, then `"closed"` with `result`. -/
def dismissEvents (d : JSAlertState) : List TraceEvent :=
  [TraceEvent.queueRemove, TraceEvent.removeElements, TraceEvent.detachKeyListener] ++
  (if d.cancelled then [TraceEvent.emit "cancelled" d.result]
   else [TraceEvent.emit "complete" d.result]) ++
  [TraceEvent.emit "closed" d.result]

/-- `dismiss(result)` (source lines 242-267): a no-op when `dismissed` already
holds, otherwise the state writes of `dismissPre` followed by the effects of
`dismissEvents` on the written state. -/
def dismiss (d : JSAlertState) (result : JSValue) : JSAlertState × List TraceEvent :=
  if d.dismissed then (d, [])
  else (dismissPre d result, dismissEvents (dismissPre d result))

/-- The deferred call scheduled by `dismissIn(time)` (source lines 270-273):
`setTimeout(this.dismiss.bind(this), time)` invokes `dismiss` with no
arguments when the timer fires, i.e. with outcome `undefined`. -/
def dismissInFire (d : JSAlertState) : JSAlertState × List TraceEvent :=
  dismiss d JSValue.undef

/-- Keyboard inputs dispatched to `handleEvent` (source lines 463-512):
`keyCode == 13` is Enter, `keyCode == 27` is Escape, anything else is
ignored. -/
inductive Key : Type
  | enter
  | escape
  | other
  deriving DecidableEq, Repr

/-- `handleEvent(e)` (source lines 463-512).  Enter: scan `buttons` for the
first with type `"default"`; when found, `dismiss` with its value and then
invoke its callback with `this.result` as it stands after the `dismiss`
call; when none, set `cancelled` and `dismiss` with no value.  Escape:
ignored unless `cancelable`; otherwise set `cancelled` and `result = null`,
scan for the first button with type `"cancel"`; when found, `dismiss` with
its value and invoke its callback with the post-dismiss `this.result`; when
none, set `cancelled` and `dismiss` with no value. -/
def handleEvent (d : JSAlertState) (k : Key) : JSAlertState × List TraceEvent :=
  match k with
  | Key.enter =>
    match d.buttons.find? (fun b => b.type == "default") with
    | some b =>
      let r := dismiss d b.value
      (r.1, r.2 ++ [TraceEvent.callbackCall b.text r.1.result])
    | none =>
      dismiss { d with cancelled := true } JSValue.undef
  | Key.escape =>
    if d.cancelable = false then (d, [])
    else
      let d1 := { d with cancelled := true, result := JSValue.null }
      match d1.buttons.find? (fun b => b.type == "cancel") with
      | some b =>
        let r := dismiss d1 b.value
        (r.1, r.2 ++ [TraceEvent.callbackCall b.text r.1.result])
      | none =>
        dismiss { d1 with cancelled := true } JSValue.undef
  | Key.other => (d, [])

/-- The touch handler attached to each rendered button (source lines
412-416): invoke the button's callback with its value, raise `cancelled` for
a `"cancel"`-typed button, then `dismiss` with the button's value. -/
def buttonActivate (d : JSAlertState) (i : Nat) : JSAlertState × List TraceEvent :=
  match d.buttons.get? i with
  | none => (d, [])
  | some b =>
    let d1 := if b.type == "cancel" then { d with cancelled := true } else d
    let r := dismiss d1 b.value
    (r.1, TraceEvent.callbackCall b.text b.value :: r.2)

/-- The backdrop touch handler (source lines 319-326): ignored unless
`cancelable`, otherwise raise `cancelled` and `dismiss` with no value. -/
def backdropActivate (d : JSAlertState) : JSAlertState × List TraceEvent :=
  if d.cancelable = false then (d, [])
  else dismiss { d with cancelled := true } JSValue.undef

/-- The keypress handler of a rendered text field (source lines 375-387) on
Enter: when the field is the last one, `dismiss` with the sentinel
`"enter-pressed"`; otherwise only move focus (no state change). -/
def fieldEnter (d : JSAlertState) (idx : Nat) : JSAlertState × List TraceEvent :=
  if d.textFields.length ≤ idx + 1 then dismiss d (JSValue.str "enter-pressed")
  else (d, [])

/-- Names of the events emitted in a trace, in order. -/
def emittedNames (evs : List TraceEvent) : List String :=
  evs.filterMap (fun e => match e with
    | TraceEvent.emit n _ => some n
    | _ => none)

/-- Name-payload pairs of the events emitted in a trace, in order. -/
def emitted (evs : List TraceEvent) : List (String × JSValue) :=
  evs.filterMap (fun e => match e with
    | TraceEvent.emit n p => some (n, p)
    | _ => none)

/-- Arguments of the button-callback invocations recorded in a trace. -/
def callbackArgs (evs : List TraceEvent) : List JSValue :=
  evs.filterMap (fun e => match e with
    | TraceEvent.callbackCall _ v => some v
    | _ => none)

/-- Modelled from the spec: `queue.js` is not under src; the
PresentationQueue is a strict-FIFO list of pending dialogs, and `add`
appends ("`add(dialog)`: appends `dialog` to `pending`").  `show()` (source
lines 222-234) adds the dialog to the shared queue and returns the dialog
itself. -/
def showDialog (q : List JSAlertState) (d : JSAlertState) :
    List JSAlertState × JSAlertState :=
  (q ++ [d], d)

/-- What a convenience constructor hands back to its caller: in a
non-renderable environment the already-resolved `Promise.resolve(...)`
(no dialog created), otherwise the shown dialog. -/
inductive ShowResult : Type
  | headlessResolved
  | shownDialog (d : JSAlertState)
  deriving DecidableEq, Repr

/-- The dialog built by `JSAlert.alert` in a browser (source lines 84-92):
one button labelled `closeText` with explicit value `null`, then the guarded
icon rule with the Information icon as fallback. -/
def alertDialog (text title : String) (icon : JSValue) (closeText : String) :
    JSAlertState :=
  applyIconRule (addButton (JSAlert.new text title) closeText JSValue.null none)
    icon IconsInformation

/-- `JSAlert.alert(text, title, icon, closeText)` (source lines 79-93): when
`window` is undefined, return `Promise.resolve(console.log(...))` without
touching the queue; otherwise build the dialog and show it. -/
def JSAlert.alert (inBrowser : Bool) (q : List JSAlertState) (text title : String)
    (icon : JSValue) (closeText : String) : ShowResult × List JSAlertState :=
  if inBrowser = false then (ShowResult.headlessResolved, q)
  else
    let s := showDialog q (alertDialog text title icon closeText)
    (ShowResult.shownDialog s.2, s.1)

/-- The dialog built by `JSAlert.confirm` in a browser (source lines
107-116): accept button with value `true` (first added, so type
`"default"`), reject button with value `false` (type `"normal"`), then the
guarded icon rule with the Question icon as fallback. -/
def confirmDialog (text title : String) (icon : JSValue)
    (acceptText rejectText : String) : JSAlertState :=
  applyIconRule
    (addButton (addButton (JSAlert.new text title) acceptText (JSValue.bool true) none)
      rejectText (JSValue.bool false) none)
    icon IconsQuestion

/-- `JSAlert.confirm(text, title, icon, acceptText, rejectText)` (source
lines 96-117). -/
def JSAlert.confirm (inBrowser : Bool) (q : List JSAlertState) (text title : String)
    (icon : JSValue) (acceptText rejectText : String) : ShowResult × List JSAlertState :=
  if inBrowser = false then (ShowResult.headlessResolved, q)
  else
    let s := showDialog q (confirmDialog text title icon acceptText rejectText)
    (ShowResult.shownDialog s.2, s.1)

/-- The dialog built by `JSAlert.prompt` in a browser (source lines
133-142): accept button with value `true` and explicit type `"default"`,
reject button with value `false` and explicit type `"cancel"`, the guarded
icon rule with the Question fallback, then one text field with the supplied
default text and placeholder (`type` argument `null`, so `"text"`). -/
def promptDialog (text defaultText placeholderText title : String) (icon : JSValue)
    (acceptText rejectText : String) : JSAlertState :=
  addTextField
    (applyIconRule
      (addButton
        (addButton (JSAlert.new text title) acceptText (JSValue.bool true)
          (some "default"))
        rejectText (JSValue.bool false) (some "cancel"))
      icon IconsQuestion)
    (some defaultText) none (some placeholderText)

/-- The continuation `prompt` chains on the closed dialog (source lines
145-149): `null` when the dialog was cancelled, else the first text field's
current value; `none` models the JavaScript throw when no field exists.
The chaining itself (`then` = `when("closed").then`, source lines 237-239)
relies on the EventSource base class, which is not under src and is
modelled from the spec as a future resolving once `"closed"` is emitted. -/
def promptResolution (d : JSAlertState) : Option JSValue :=
  if d.cancelled then some JSValue.null
  else (getTextFieldValue d 0).map JSValue.str

/-- `JSAlert.prompt(...)` (source lines 120-150). -/
def JSAlert.prompt (inBrowser : Bool) (q : List JSAlertState)
    (text defaultText placeholderText title : String) (icon : JSValue)
    (acceptText rejectText : String) : ShowResult × List JSAlertState :=
  if inBrowser = false then (ShowResult.headlessResolved, q)
  else
    let s := showDialog q
      (promptDialog text defaultText placeholderText title icon acceptText rejectText)
    (ShowResult.shownDialog s.2, s.1)

/-- The dialog built by `JSAlert.loader` in a browser (source lines
158-163): no buttons, no icon, `cancelable` overwritten by the argument. -/
def loaderDialog (text : String) (cancelable : Bool) : JSAlertState :=
  { JSAlert.new text "" with cancelable := cancelable }

/-- `JSAlert.loader(text, cancelable)` (source lines 153-164). -/
def JSAlert.loader (inBrowser : Bool) (q : List JSAlertState) (text : String)
    (cancelable : Bool) : ShowResult × List JSAlertState :=
  if inBrowser = false then (ShowResult.headlessResolved, q)
  else
    let s := showDialog q (loaderDialog text cancelable)
    (ShowResult.shownDialog s.2, s.1)

/-- C1: `dismiss` is idempotent: on a dialog whose `dismissed` flag already
holds, `dismiss` changes no state and emits nothing; the flag is set by the
state-write phase `dismissPre` before any notification is emitted, so a
re-entrant `dismiss` from a handler invoked during the first call is a
no-op, and two `dismiss` calls on a not-yet-dismissed dialog produce exactly
one `"closed"` emission in total. -/
theorem dismiss_idempotent (d : JSAlertState) (r r2 r3 : JSValue) :
    (d.dismissed = true → dismiss d r = (d, [])) ∧
    ((dismissPre d r).dismissed = true) ∧
    (dismiss (dismissPre d r) r2 = (dismissPre d r, [])) ∧
    (d.dismissed = false →
      ((emittedNames ((dismiss d r).2 ++ (dismiss (dismiss d r).1 r3).2)).count
        "closed") = 1) := by
  refine ⟨fun h => by simp [dismiss, h], rfl, by simp [dismiss, dismissPre],
    fun h => ?_⟩
  simp only [dismiss, h, dismissPre]
  cases hc : (if r = JSValue.undef then true else d.cancelled) <;>
    simp [dismissEvents, emittedNames, hc]

/-- C1 witness: evaluating `dismiss_idempotent` on a freshly constructed
dialog, dismissed twice with outcome `null`. -/
theorem dismiss_idempotent_witness :
    ((dismissPre (JSAlert.new "a" "b") JSValue.null).dismissed = true) ∧
    ((emittedNames ((dismiss (JSAlert.new "a" "b") JSValue.null).2 ++
      (dismiss (dismiss (JSAlert.new "a" "b") JSValue.null).1 JSValue.null).2)).count
        "closed") = 1 :=
  ⟨(dismiss_idempotent (JSAlert.new "a" "b") JSValue.null JSValue.null
      JSValue.null).2.1,
   (dismiss_idempotent (JSAlert.new "a" "b") JSValue.null JSValue.null
      JSValue.null).2.2.2 rfl⟩

/-- C2: on a not-yet-dismissed dialog, `dismiss` with no outcome argument
(outcome `undefined`) stores that outcome as `result`, raises `cancelled`,
and emits `"cancelled"` with the result before `"closed"` with the result;
with a supplied outcome and `cancelled` still false it instead emits
`"complete"` before `"closed"`; every dismissal emits exactly one of
`"cancelled"`/`"complete"` (followed by `"closed"`). -/
theorem dismiss_outcome_events (d : JSAlertState) (v : JSValue)
    (h : d.dismissed = false) :
    (emitted (dismiss d JSValue.undef).2 =
        [("cancelled", JSValue.undef), ("closed", JSValue.undef)] ∧
      (dismiss d JSValue.undef).1.result = JSValue.undef ∧
      (dismiss d JSValue.undef).1.cancelled = true) ∧
    (v ≠ JSValue.undef → d.cancelled = false →
      emitted (dismiss d v).2 = [("complete", v), ("closed", v)] ∧
      (dismiss d v).1.result = v ∧
      (dismiss d v).1.cancelled = false) ∧
    (emittedNames (dismiss d v).2 = ["cancelled", "closed"] ∨
      emittedNames (dismiss d v).2 = ["complete", "closed"]) := by
  refine ⟨?_, fun hv hc => ?_, ?_⟩
  · simp [dismiss, h, dismissPre, dismissEvents, emitted]
  · simp [dismiss, h, dismissPre, dismissEvents, emitted, hv, hc]
  · simp only [dismiss, h, Bool.false_eq_true, if_false]
    cases hc : (dismissPre d v).cancelled <;>
      simp [dismissEvents, emittedNames, hc]

/-- C2 witness: evaluating `dismiss_outcome_events` on a fresh dialog, with
supplied outcome `true`. -/
theorem dismiss_outcome_events_witness :
    (emitted (dismiss (JSAlert.new "t" "") JSValue.undef).2 =
        [("cancelled", JSValue.undef), ("closed", JSValue.undef)]) ∧
    (emitted (dismiss (JSAlert.new "t" "") (JSValue.bool true)).2 =
        [("complete", JSValue.bool true), ("closed", JSValue.bool true)]) :=
  ⟨(dismiss_outcome_events (JSAlert.new "t" "") (JSValue.bool true) rfl).1.1,
   ((dismiss_outcome_events (JSAlert.new "t" "") (JSValue.bool true) rfl).2.1
      (by decide) rfl).1⟩

/-- C10: the deferred call scheduled by `dismissIn` invokes `dismiss` with no
arguments, so on a not-yet-dismissed dialog the timed dismissal stores
`undefined` as `result`, raises `cancelled`, and emits `"cancelled"` (never
`"complete"`) before `"closed"`. -/
theorem dismissIn_fires_as_cancel (d : JSAlertState) (h : d.dismissed = false) :
    dismissInFire d = dismiss d JSValue.undef ∧
    (dismissInFire d).1.result = JSValue.undef ∧
    (dismissInFire d).1.cancelled = true ∧
    emittedNames (dismissInFire d).2 = ["cancelled", "closed"] := by
  refine ⟨rfl, ?_, ?_, ?_⟩ <;>
    simp [dismissInFire, dismiss, h, dismissPre, dismissEvents, emittedNames]

/-- C10 witness: evaluating `dismissIn_fires_as_cancel` on a fresh dialog. -/
theorem dismissIn_fires_as_cancel_witness :
    (dismissInFire (JSAlert.new "x" "y")).1.cancelled = true ∧
    emittedNames (dismissInFire (JSAlert.new "x" "y")).2 = ["cancelled", "closed"] :=
  ⟨(dismissIn_fires_as_cancel (JSAlert.new "x" "y") rfl).2.2.1,
   (dismissIn_fires_as_cancel (JSAlert.new "x" "y") rfl).2.2.2⟩

/-- C3: on Enter for an active (not-yet-dismissed) dialog, the buttons list
is scanned in insertion order (`find?`) and the dialog is dismissed with the
value of the first button whose type is `"default"`; when no such button
exists, the dialog is dismissed with no value and `cancelled` raised. -/
theorem handleEvent_enter_default (d : JSAlertState) (b : Button)
    (h : d.dismissed = false) :
    (d.buttons.find? (fun x => x.type == "default") = some b →
      (handleEvent d Key.enter).1.result = b.value ∧
      (handleEvent d Key.enter).1.dismissed = true) ∧
    (d.buttons.find? (fun x => x.type == "default") = none →
      (handleEvent d Key.enter).1.result = JSValue.undef ∧
      (handleEvent d Key.enter).1.cancelled = true ∧
      (handleEvent d Key.enter).1.dismissed = true) := by
  constructor
  · intro hb
    simp [handleEvent, hb, dismiss, h, dismissPre]
  · intro hb
    simp [handleEvent, hb, dismiss, h, dismissPre]

/-- C3 witness: evaluating `handleEvent_enter_default` on the spec's example
dialog whose buttons are a `"normal"` button followed by a `"default"`
button of value `"X"` (resolving with `"X"`), and on a dialog with no
`"default"` button (implicit cancel). -/
theorem handleEvent_enter_default_witness :
    ((handleEvent (addButton (addButton (JSAlert.new "t" "") "a" (JSValue.str "A")
        (some "normal")) "b" (JSValue.str "X") (some "default")) Key.enter).1.result =
      JSValue.str "X") ∧
    ((handleEvent (addButton (JSAlert.new "t" "") "c" (JSValue.str "C")
        (some "cancel")) Key.enter).1.cancelled = true) :=
  ⟨((handleEvent_enter_default (addButton (addButton (JSAlert.new "t" "") "a"
        (JSValue.str "A") (some "normal")) "b" (JSValue.str "X") (some "default"))
      { text := "b", value := JSValue.str "X", type := "default" } rfl).1
      (by decide)).1,
   ((handleEvent_enter_default (addButton (JSAlert.new "t" "") "c" (JSValue.str "C")
        (some "cancel"))
      { text := "c", value := JSValue.str "C", type := "cancel" } rfl).2
      (by decide)).2.1⟩

/-- C4 counterexample: on an active dialog whose `result` still holds its
initial value `false` and whose single button has type `"default"` and value
`"X"`, the Enter handler invokes the button's callback with `"X"` — the
result as assigned by `dismiss` — and not with the pre-dismiss result
`false`, refuting the claim that the callback receives the pre-dismiss
result. -/
theorem handleEvent_enter_callback_pre_cex :
    callbackArgs (handleEvent (addButton (JSAlert.new "t" "") "ok" (JSValue.str "X")
        none) Key.enter).2 = [JSValue.str "X"] ∧
    (addButton (JSAlert.new "t" "") "ok" (JSValue.str "X") none).result =
      JSValue.bool false ∧
    JSValue.str "X" ≠ JSValue.bool false := by
  refine ⟨by decide, rfl, by decide⟩

/-- C4 (amended): on Enter for an active dialog with a first `"default"`
button `b`, the callback runs after `dismiss` has stored `b.value` in
`result`, so it is invoked with the post-dismiss result, which equals
`b.value`. -/
theorem handleEvent_enter_callback_arg (d : JSAlertState) (b : Button)
    (h : d.dismissed = false)
    (hb : d.buttons.find? (fun x => x.type == "default") = some b) :
    callbackArgs (handleEvent d Key.enter).2 = [b.value] ∧
    (handleEvent d Key.enter).1.result = b.value := by
  constructor
  · simp [handleEvent, hb, dismiss, h, dismissPre, dismissEvents, callbackArgs]
    split <;> simp
  · simp [handleEvent, hb, dismiss, h, dismissPre]

/-- C4 witness: evaluating `handleEvent_enter_callback_arg` on the
counterexample dialog. -/
theorem handleEvent_enter_callback_arg_witness :
    callbackArgs (handleEvent (addButton (JSAlert.new "t" "") "ok" (JSValue.str "X")
        none) Key.enter).2 = [JSValue.str "X"] :=
  (handleEvent_enter_callback_arg (addButton (JSAlert.new "t" "") "ok"
      (JSValue.str "X") none)
    { text := "ok", value := JSValue.str "X", type := "default" } rfl (by decide)).1

/-- C5: on Escape, a non-cancelable dialog is left unchanged with no
emissions; otherwise, on an active dialog, `cancelled` is raised and the
buttons are scanned in insertion order for the first with type `"cancel"`:
when found the dialog is dismissed with that button's value and its callback
is invoked, when absent the dialog is dismissed with no value. -/
theorem handleEvent_escape_cancel (d : JSAlertState) (b : Button) :
    (d.cancelable = false → handleEvent d Key.escape = (d, [])) ∧
    (d.cancelable = true → d.dismissed = false →
      d.buttons.find? (fun x => x.type == "cancel") = some b →
      (handleEvent d Key.escape).1.result = b.value ∧
      (handleEvent d Key.escape).1.cancelled = true ∧
      (handleEvent d Key.escape).1.dismissed = true ∧
      callbackArgs (handleEvent d Key.escape).2 = [b.value]) ∧
    (d.cancelable = true → d.dismissed = false →
      d.buttons.find? (fun x => x.type == "cancel") = none →
      (handleEvent d Key.escape).1.result = JSValue.undef ∧
      (handleEvent d Key.escape).1.cancelled = true ∧
      (handleEvent d Key.escape).1.dismissed = true) := by
  refine ⟨fun hc => by simp [handleEvent, hc], fun hc h hb => ?_, fun hc h hb => ?_⟩
  · refine ⟨?_, ?_, ?_, ?_⟩ <;>
      simp [handleEvent, hc, hb, dismiss, h, dismissPre, dismissEvents, callbackArgs]
  · refine ⟨?_, ?_, ?_⟩ <;>
      simp [handleEvent, hc, hb, dismiss, h, dismissPre]

/-- C5 witness: evaluating `handleEvent_escape_cancel` on a non-cancelable
loader, on a prompt-like dialog with a `"cancel"` button of value `false`,
and on an alert-like dialog with no `"cancel"` button. -/
theorem handleEvent_escape_cancel_witness :
    (handleEvent (loaderDialog "busy" false) Key.escape =
      (loaderDialog "busy" false, [])) ∧
    ((handleEvent (addButton (JSAlert.new "q" "") "No" (JSValue.bool false)
        (some "cancel")) Key.escape).1.result = JSValue.bool false) ∧
    ((handleEvent (addButton (JSAlert.new "q" "") "OK" JSValue.null none)
        Key.escape).1.result = JSValue.undef) :=
  ⟨(handleEvent_escape_cancel (loaderDialog "busy" false)
      { text := "", value := JSValue.undef, type := "" }).1 rfl,
   ((handleEvent_escape_cancel (addButton (JSAlert.new "q" "") "No"
        (JSValue.bool false) (some "cancel"))
      { text := "No", value := JSValue.bool false, type := "cancel" }).2.1
      rfl rfl (by decide)).1,
   ((handleEvent_escape_cancel (addButton (JSAlert.new "q" "") "OK" JSValue.null none)
      { text := "", value := JSValue.undef, type := "" }).2.2
      rfl rfl (by decide)).1⟩

/-- C6: `addButton` appends the new button at the end of the list; without an
explicit type argument the button's type is `"default"` when the list was
empty at the call and `"normal"` otherwise; without a value argument
(`undefined`) the button's value is its label text. -/
theorem addButton_defaults (d : JSAlertState) (t : String) (v : JSValue)
    (r : Option String) :
    ((addButton d t v r).buttons.take d.buttons.length = d.buttons ∧
      (addButton d t v r).buttons.length = d.buttons.length + 1) ∧
    (d.buttons = [] → (addButton d t v none).buttons =
      [{ text := t, value := if v = JSValue.undef then JSValue.str t else v,
         type := "default" }]) ∧
    (d.buttons ≠ [] →
      ((addButton d t v none).buttons.getLast?).map Button.type = some "normal") ∧
    (((addButton d t JSValue.undef r).buttons.getLast?).map Button.value =
      some (JSValue.str t)) := by
  refine ⟨⟨?_, ?_⟩, fun hd => ?_, fun hd => ?_, ?_⟩
  · simp [addButton, List.take_append]
  · simp [addButton]
  · simp [addButton, hd]
  · simp [addButton, List.getLast?_concat, List.length_eq_zero, hd]
  · simp [addButton, List.getLast?_concat]

/-- C6 witness: evaluating `addButton_defaults` on an empty and a one-button
dialog, with the value argument omitted. -/
theorem addButton_defaults_witness :
    ((addButton (JSAlert.new "t" "") "Close" JSValue.undef none).buttons =
      [{ text := "Close", value := JSValue.str "Close", type := "default" }]) ∧
    (((addButton (addButton (JSAlert.new "t" "") "A" JSValue.undef none) "B"
        JSValue.undef none).buttons.getLast?).map Button.type = some "normal") :=
  ⟨(addButton_defaults (JSAlert.new "t" "") "Close" JSValue.undef none).2.1 rfl,
   (addButton_defaults (addButton (JSAlert.new "t" "") "A" JSValue.undef none) "B"
      JSValue.undef none).2.2.1 (by decide)⟩

/-- C7: each convenience constructor, invoked outside a browser (no global
`window`), returns the already-resolved `Promise.resolve(...)` — a total
function, so nothing is thrown — and leaves the popup queue untouched, never
building or enqueuing a dialog. -/
theorem headless_constructors (q : List JSAlertState)
    (text title defaultText placeholderText closeText acceptText rejectText :
      String) (icon : JSValue) (cancelable : Bool) :
    JSAlert.alert false q text title icon closeText =
      (ShowResult.headlessResolved, q) ∧
    JSAlert.confirm false q text title icon acceptText rejectText =
      (ShowResult.headlessResolved, q) ∧
    JSAlert.prompt false q text defaultText placeholderText title icon acceptText
        rejectText = (ShowResult.headlessResolved, q) ∧
    JSAlert.loader false q text cancelable = (ShowResult.headlessResolved, q) :=
  ⟨rfl, rfl, rfl, rfl⟩

/-- C8: the continuation chained by `prompt` yields the text field's current
value when the dialog closed with `cancelled` false (here: the accept
trigger of pressing Enter in the single field, with rendered field value
`v`), and the no-answer sentinel `null` — a value distinct from the field's
value — when the dialog was cancelled (here: the Escape trigger). -/
theorem prompt_resolution_roundtrip (text defaultText placeholderText title
    acceptText rejectText v : String) (icon : JSValue) :
    promptResolution ((fieldEnter (setFieldElem (promptDialog text defaultText
        placeholderText title icon acceptText rejectText) 0 v) 0).1) =
      some (JSValue.str v) ∧
    promptResolution ((handleEvent (setFieldElem (promptDialog text defaultText
        placeholderText title icon acceptText rejectText) 0 v) Key.escape).1) =
      some JSValue.null ∧
    some JSValue.null ≠ some (JSValue.str v) := by
  refine ⟨?_, ?_, by simp⟩
  · simp [promptDialog, JSAlert.new, addButton, addTextField, applyIconRule,
      setFieldElem, fieldEnter, dismiss, dismissPre, promptResolution,
      getTextFieldValue]
  · simp [promptDialog, JSAlert.new, addButton, addTextField, applyIconRule,
      setFieldElem, handleEvent, dismiss, dismissPre, promptResolution]

/-- C9 counterexample: for the concrete alert dialog built by
`alert("hello", "", false, "Close")`, the single button's value is `null`,
yet the Escape branch dismisses with no value, leaving `result` equal to
`undefined` — a JavaScript value distinct from the button's value `null` —
so not every dismissing branch resolves with the button's value. -/
theorem alert_every_branch_value_cex :
    ((alertDialog "hello" "" (JSValue.bool false) "Close").buttons.map
        Button.value = [JSValue.null]) ∧
    ((handleEvent (alertDialog "hello" "" (JSValue.bool false) "Close")
        Key.escape).1.result = JSValue.undef) ∧
    JSValue.undef ≠ JSValue.null := by
  refine ⟨by decide, by decide, by decide⟩

/-- C9 (amended): a dialog created by `alert` has exactly one button, of type
`"default"`, labelled with the close text, and its value is `null`; the
confirm trigger (Enter) and the button's own activation resolve the dialog
with that value `null`, while the cancel trigger (Escape) and backdrop
activation dismiss with no value, leaving `result` as `undefined` (distinct
from `null`) with `cancelled` raised. -/
theorem alert_branch_resolutions (text title closeText : String) (icon : JSValue) :
    ((alertDialog text title icon closeText).buttons.map Button.type =
      ["default"]) ∧
    ((alertDialog text title icon closeText).buttons.map Button.text =
      [closeText]) ∧
    ((alertDialog text title icon closeText).buttons.map Button.value =
      [JSValue.null]) ∧
    ((handleEvent (alertDialog text title icon closeText) Key.enter).1.result =
      JSValue.null) ∧
    ((buttonActivate (alertDialog text title icon closeText) 0).1.result =
      JSValue.null) ∧
    ((handleEvent (alertDialog text title icon closeText) Key.escape).1.result =
      JSValue.undef) ∧
    ((handleEvent (alertDialog text title icon closeText) Key.escape).1.cancelled =
      true) ∧
    ((backdropActivate (alertDialog text title icon closeText)).1.result =
      JSValue.undef) ∧
    ((backdropActivate (alertDialog text title icon closeText)).1.cancelled =
      true) := by
  refine ⟨?_, ?_, ?_, ?_, ?_, ?_, ?_, ?_, ?_⟩ <;>
    simp [alertDialog, JSAlert.new, addButton, applyIconRule, handleEvent,
      buttonActivate, backdropActivate, dismiss, dismissPre]
